import Mathlib

/-!
# Verification of the resilient request-orchestration layer

Shallow embedding of the rate limiter (`utils/rateLimiter.js`), the error
classifier and retry executor (`hooks/useErrorHandler.js`, `utils/api.js`),
the client-side cache and request management (`hooks/useImageGeneration.js`),
and the fan-out generation handler (`src/pages/api/generate-image.js`, with
the evolved variant of the same handler that reads generation options).

JavaScript numbers are modelled as `Int` (timestamps, token counts, statuses)
or as `ℚ` where fractional arithmetic matters (backoff delays).  `Math.floor`
on a quotient of integers is floor division (`Int.fdiv`), `Math.ceil` its
dual.  Fallible code is modelled with `Except`/`Option`.
-/

/-- JavaScript `Math.floor(a / b)` for integer `a`, `b`: floor division. -/
def jsFloorDiv (a b : Int) : Int := a.fdiv b

/-- JavaScript `Math.ceil(a / b)` for integer `a`, `b`: ceiling division,
written via floor division of the negation. -/
def jsCeilDiv (a b : Int) : Int := -((-a).fdiv b)

/-! ## Rate limiter (`utils/rateLimiter.js`, `RateLimiter.checkRateLimit`)

The store maps a key to a bucket `{tokens, lastRefill}`.  Distinct keys use
disjoint buckets, so one key's bucket is modelled in isolation: the state is
`Option Bucket` (`none` = key not yet observed). -/

/-- A token bucket entry of `rateLimitStore`: `{ tokens, lastRefill }`. -/
structure Bucket where
  tokens : Int
  lastRefill : Int
  deriving Repr, DecidableEq

/-- The object returned by `checkRateLimit`.  `retryAfter` is present only on
the denied branch. -/
structure RLResult where
  allowed : Bool
  remaining : Int
  resetTime : Int
  limit : Int
  retryAfter : Option Int
  deriving Repr, DecidableEq

/-- The refill half of `checkRateLimit` (`utils/rateLimiter.js` lines 57–64):
add `floor(timePassed / windowMs) * maxRequests` tokens, capped at
`maxRequests`, and advance `lastRefill`, but only when the computed amount is
positive. -/
def refillBucket (cap windowMs : Int) (bucket : Bucket) (now : Int) : Bucket :=
  if jsFloorDiv (now - bucket.lastRefill) windowMs * cap > 0 then
    { tokens := min cap (bucket.tokens + jsFloorDiv (now - bucket.lastRefill) windowMs * cap)
      lastRefill := now }
  else bucket

/-- The consume half of `checkRateLimit` (`utils/rateLimiter.js` lines 66–83):
take one token and allow when any remain, else deny with
`retryAfter = ceil((lastRefill + windowMs - now) / 1000)`. -/
def consumeBucket (cap windowMs : Int) (bucket1 : Bucket) (now : Int) :
    RLResult × Bucket :=
  if bucket1.tokens > 0 then
    ({ allowed := true
       remaining := bucket1.tokens - 1
       resetTime := bucket1.lastRefill + windowMs
       limit := cap
       retryAfter := none },
     { tokens := bucket1.tokens - 1, lastRefill := bucket1.lastRefill })
  else
    ({ allowed := false
       remaining := 0
       resetTime := bucket1.lastRefill + windowMs
       limit := cap
       retryAfter := some (jsCeilDiv (bucket1.lastRefill + windowMs - now) 1000) },
     bucket1)

/-- The refill-then-consume body of `checkRateLimit` on an existing bucket. -/
def bucketStep (cap windowMs : Int) (bucket : Bucket) (now : Int) :
    RLResult × Bucket :=
  consumeBucket cap windowMs (refillBucket cap windowMs bucket now) now

/-- One `checkRateLimit(req)` call for a single key, from
`utils/rateLimiter.js` lines 42–84: create the bucket if absent
(`tokens = maxRequests, lastRefill = now`), then run the refill/consume
body. -/
def checkRateLimitStep (cap windowMs : Int) (store : Option Bucket) (now : Int) :
    RLResult × Bucket :=
  bucketStep cap windowMs (store.getD { tokens := cap, lastRefill := now }) now

/-- Run a finite sequence of `checkRateLimit` calls (one per listed clock
value) against one key's bucket, returning all results and the final store. -/
def runCalls (cap windowMs : Int) (store : Option Bucket) :
    List Int → List RLResult × Option Bucket
  | [] => ([], store)
  | t :: ts =>
    let step := checkRateLimitStep cap windowMs store t
    let rest := runCalls cap windowMs (some step.2) ts
    (step.1 :: rest.1, rest.2)

/-- The bucket states after each call of a sequence. -/
def runBuckets (cap windowMs : Int) (store : Option Bucket) :
    List Int → List Bucket
  | [] => []
  | t :: ts =>
    let step := checkRateLimitStep cap windowMs store t
    step.2 :: runBuckets cap windowMs (some step.2) ts

/-- The bucket invariant claimed by the spec: `0 ≤ tokens ≤ capacity`. -/
def BucketInv (cap : Int) (b : Bucket) : Prop :=
  0 ≤ b.tokens ∧ b.tokens ≤ cap

instance (cap : Int) (b : Bucket) : Decidable (BucketInv cap b) := by
  unfold BucketInv; infer_instance

theorem refillBucket_inv (cap windowMs : Int) (hcap : 0 ≤ cap)
    (bucket : Bucket) (hb : BucketInv cap bucket) (now : Int) :
    BucketInv cap (refillBucket cap windowMs bucket now) := by
  obtain ⟨h0, h1⟩ := hb
  unfold refillBucket
  by_cases hadd : jsFloorDiv (now - bucket.lastRefill) windowMs * cap > 0
  · simp only [hadd, if_true]
    constructor <;> dsimp only <;> omega
  · simp only [hadd, if_false]
    exact ⟨h0, h1⟩

theorem consumeBucket_inv (cap windowMs : Int) (bucket1 : Bucket)
    (hb : BucketInv cap bucket1) (now : Int) :
    BucketInv cap (consumeBucket cap windowMs bucket1 now).2 := by
  obtain ⟨h0, h1⟩ := hb
  unfold consumeBucket
  by_cases hpos : bucket1.tokens > 0
  · simp only [hpos, if_true]
    constructor <;> dsimp only <;> omega
  · simp only [hpos, if_false]
    exact ⟨h0, h1⟩

theorem bucketStep_inv (cap windowMs : Int) (hcap : 0 ≤ cap)
    (bucket : Bucket) (hb : BucketInv cap bucket) (now : Int) :
    BucketInv cap (bucketStep cap windowMs bucket now).2 :=
  consumeBucket_inv cap windowMs _
    (refillBucket_inv cap windowMs hcap bucket hb now) now

theorem checkRateLimitStep_inv (cap windowMs : Int) (hcap : 0 ≤ cap)
    (store : Option Bucket) (now : Int)
    (hstore : ∀ b, store = some b → BucketInv cap b) :
    BucketInv cap (checkRateLimitStep cap windowMs store now).2 := by
  unfold checkRateLimitStep
  apply bucketStep_inv cap windowMs hcap _ _ now
  cases store with
  | none => exact ⟨hcap, le_refl _⟩
  | some b => exact hstore b rfl

theorem jsFloorDiv_eq_zero {a b : Int} (h0 : 0 ≤ a) (h : a < b) :
    jsFloorDiv a b = 0 := by
  unfold jsFloorDiv
  rw [Int.fdiv_eq_ediv _ (by omega : (0:Int) ≤ b)]
  exact Int.ediv_eq_zero_of_lt h0 h

theorem jsCeilDiv_pos {a b : Int} (ha : 0 < a) (hb : 0 < b) :
    0 < jsCeilDiv a b := by
  unfold jsCeilDiv
  rw [Int.fdiv_eq_ediv _ (le_of_lt hb)]
  have h := Int.ediv_neg' (a := -a) (b := b) (by omega) hb
  omega

theorem refillBucket_eq_self (cap windowMs : Int) (bucket : Bucket) (now : Int)
    (h0 : bucket.lastRefill ≤ now) (h1 : now < bucket.lastRefill + windowMs) :
    refillBucket cap windowMs bucket now = bucket := by
  unfold refillBucket
  rw [jsFloorDiv_eq_zero (by omega) (by omega)]
  simp

theorem runBuckets_inv (cap windowMs : Int) (hcap : 0 ≤ cap) :
    ∀ (times : List Int) (store : Option Bucket),
      (∀ b, store = some b → BucketInv cap b) →
      ∀ b ∈ runBuckets cap windowMs store times, BucketInv cap b := by
  intro times
  induction times with
  | nil =>
    intro store hs b hb
    simp [runBuckets] at hb
  | cons t ts ih =>
    intro store hs b hb
    simp only [runBuckets, List.mem_cons] at hb
    have hstep : BucketInv cap (checkRateLimitStep cap windowMs store t).2 :=
      checkRateLimitStep_inv cap windowMs hcap store t hs
    rcases hb with h | h
    · rw [h]; exact hstep
    · exact ih (some (checkRateLimitStep cap windowMs store t).2)
        (fun b' hb' => by rw [← Option.some_inj.mp hb']; exact hstep) b h

/-- C4: for every key and every finite sequence of `checkRateLimit` calls at
arbitrary times, the bucket's `tokens` field stays within
`0 ≤ tokens ≤ capacity` after every call: consumption never drives it
negative, refill never exceeds capacity. -/
theorem c4_rate_limit_tokens_bounded (cap windowMs : Int) (hcap : 0 ≤ cap)
    (times : List Int) :
    ∀ b ∈ runBuckets cap windowMs none times, 0 ≤ b.tokens ∧ b.tokens ≤ cap :=
  runBuckets_inv cap windowMs hcap times none (fun _ h => by cases h)

/-- Witness for C4 at `capacity = 3`, `windowMs = 60000` and the call
sequence `[0, 10, 70000]`: the bucket after the first call is `⟨2, 0⟩` and
satisfies the bounds. -/
theorem c4_rate_limit_tokens_bounded_witness :
    0 ≤ (Bucket.mk 2 0).tokens ∧ (Bucket.mk 2 0).tokens ≤ 3 :=
  c4_rate_limit_tokens_bounded 3 60000 (by decide) [0, 10, 70000]
    (Bucket.mk 2 0) (by decide)

theorem consumeBucket_pos (cap windowMs : Int) (bucket1 : Bucket) (now : Int)
    (h : bucket1.tokens > 0) :
    consumeBucket cap windowMs bucket1 now =
      ({ allowed := true
         remaining := bucket1.tokens - 1
         resetTime := bucket1.lastRefill + windowMs
         limit := cap
         retryAfter := none },
       { tokens := bucket1.tokens - 1, lastRefill := bucket1.lastRefill }) := by
  unfold consumeBucket
  simp [h]

theorem consumeBucket_zero (cap windowMs : Int) (bucket1 : Bucket) (now : Int)
    (h : ¬ bucket1.tokens > 0) :
    consumeBucket cap windowMs bucket1 now =
      ({ allowed := false
         remaining := 0
         resetTime := bucket1.lastRefill + windowMs
         limit := cap
         retryAfter := some (jsCeilDiv (bucket1.lastRefill + windowMs - now) 1000) },
       bucket1) := by
  unfold consumeBucket
  simp [h]

/-- C5: with `capacity = 3` and `windowMs = 60000`, three consecutive calls
for a fresh key within one window return `allowed = true` with `remaining`
equal to 2, 1, 0 in that order, and a fourth call within the same window
returns `allowed = false` with a `retryAfter` value strictly greater
than 0. -/
theorem c5_three_calls_then_denied (t1 t2 t3 t4 : Int)
    (h12 : t1 ≤ t2) (h23 : t2 ≤ t3) (h34 : t3 ≤ t4)
    (hwin : t4 < t1 + 60000) :
    runCalls 3 60000 none [t1, t2, t3, t4] =
      ([{ allowed := true, remaining := 2, resetTime := t1 + 60000, limit := 3,
          retryAfter := none },
        { allowed := true, remaining := 1, resetTime := t1 + 60000, limit := 3,
          retryAfter := none },
        { allowed := true, remaining := 0, resetTime := t1 + 60000, limit := 3,
          retryAfter := none },
        { allowed := false, remaining := 0, resetTime := t1 + 60000, limit := 3,
          retryAfter := some (jsCeilDiv (t1 + 60000 - t4) 1000) }],
       some { tokens := 0, lastRefill := t1 })
    ∧ 0 < jsCeilDiv (t1 + 60000 - t4) 1000 := by
  have s1 : checkRateLimitStep 3 60000 none t1 =
      ({ allowed := true, remaining := 2, resetTime := t1 + 60000, limit := 3,
         retryAfter := none }, { tokens := 2, lastRefill := t1 }) := by
    unfold checkRateLimitStep bucketStep
    rw [show (none : Option Bucket).getD { tokens := 3, lastRefill := t1 } =
          { tokens := 3, lastRefill := t1 } from rfl]
    rw [refillBucket_eq_self 3 60000 { tokens := 3, lastRefill := t1 } t1
          (le_refl _) (by dsimp only; omega)]
    rw [consumeBucket_pos 3 60000 { tokens := 3, lastRefill := t1 } t1
          (by norm_num)]
    norm_num
  have s2 : checkRateLimitStep 3 60000 (some { tokens := 2, lastRefill := t1 }) t2 =
      ({ allowed := true, remaining := 1, resetTime := t1 + 60000, limit := 3,
         retryAfter := none }, { tokens := 1, lastRefill := t1 }) := by
    unfold checkRateLimitStep bucketStep
    rw [show (some { tokens := 2, lastRefill := t1 } : Option Bucket).getD _ =
          { tokens := 2, lastRefill := t1 } from rfl]
    rw [refillBucket_eq_self 3 60000 { tokens := 2, lastRefill := t1 } t2
          (by dsimp only; omega) (by dsimp only; omega)]
    rw [consumeBucket_pos 3 60000 { tokens := 2, lastRefill := t1 } t2
          (by norm_num)]
    norm_num
  have s3 : checkRateLimitStep 3 60000 (some { tokens := 1, lastRefill := t1 }) t3 =
      ({ allowed := true, remaining := 0, resetTime := t1 + 60000, limit := 3,
         retryAfter := none }, { tokens := 0, lastRefill := t1 }) := by
    unfold checkRateLimitStep bucketStep
    rw [show (some { tokens := 1, lastRefill := t1 } : Option Bucket).getD _ =
          { tokens := 1, lastRefill := t1 } from rfl]
    rw [refillBucket_eq_self 3 60000 { tokens := 1, lastRefill := t1 } t3
          (by dsimp only; omega) (by dsimp only; omega)]
    rw [consumeBucket_pos 3 60000 { tokens := 1, lastRefill := t1 } t3
          (by norm_num)]
    norm_num
  have s4 : checkRateLimitStep 3 60000 (some { tokens := 0, lastRefill := t1 }) t4 =
      ({ allowed := false, remaining := 0, resetTime := t1 + 60000, limit := 3,
         retryAfter := some (jsCeilDiv (t1 + 60000 - t4) 1000) },
       { tokens := 0, lastRefill := t1 }) := by
    unfold checkRateLimitStep bucketStep
    rw [show (some { tokens := 0, lastRefill := t1 } : Option Bucket).getD _ =
          { tokens := 0, lastRefill := t1 } from rfl]
    rw [refillBucket_eq_self 3 60000 { tokens := 0, lastRefill := t1 } t4
          (by dsimp only; omega) (by dsimp only; omega)]
    rw [consumeBucket_zero 3 60000 { tokens := 0, lastRefill := t1 } t4
          (by norm_num)]
  refine ⟨?_, jsCeilDiv_pos (by omega) (by norm_num)⟩
  simp only [runCalls, s1, s2, s3, s4]

/-- Witness for C5 at concrete times `t1 = t2 = t3 = t4 = 0`. -/
theorem c5_three_calls_then_denied_witness :
    runCalls 3 60000 none [0, 0, 0, 0] =
      ([{ allowed := true, remaining := 2, resetTime := 60000, limit := 3,
          retryAfter := none },
        { allowed := true, remaining := 1, resetTime := 60000, limit := 3,
          retryAfter := none },
        { allowed := true, remaining := 0, resetTime := 60000, limit := 3,
          retryAfter := none },
        { allowed := false, remaining := 0, resetTime := 60000, limit := 3,
          retryAfter := some (jsCeilDiv 60000 1000) }],
       some { tokens := 0, lastRefill := 0 })
    ∧ 0 < jsCeilDiv 60000 1000 := by
  have h := c5_three_calls_then_denied 0 0 0 0 (by decide) (by decide)
    (by decide) (by decide)
  simpa using h

theorem refillBucket_tokens_pos_of_add (cap windowMs : Int) (hcap : 1 ≤ cap)
    (bucket : Bucket) (htok : 0 ≤ bucket.tokens) (now : Int)
    (hadd : jsFloorDiv (now - bucket.lastRefill) windowMs * cap > 0) :
    (refillBucket cap windowMs bucket now).tokens > 0 := by
  have hq : 1 ≤ jsFloorDiv (now - bucket.lastRefill) windowMs := by
    by_contra h
    push_neg at h
    have hle : jsFloorDiv (now - bucket.lastRefill) windowMs ≤ 0 := by omega
    have := mul_le_mul_of_nonneg_right hle (by omega : (0:Int) ≤ cap)
    simp at this
    omega
  have hge : cap ≤ jsFloorDiv (now - bucket.lastRefill) windowMs * cap := by
    have := mul_le_mul_of_nonneg_right hq (by omega : (0:Int) ≤ cap)
    simpa using this
  unfold refillBucket
  simp only [hadd, if_true]
  omega

/-- C10: for every key, a `checkRateLimit` call that returns
`allowed = false` leaves the bucket state unchanged beyond the refill step:
`tokens` remains 0 and `lastRefill` is not advanced by the denial itself
(in fact a denial can never coincide with a refill, so the bucket is wholly
unchanged), and repeated denied calls at the same clock instant return
identical `resetTime` and `retryAfter` values. -/
theorem c10_denied_call_is_pure (cap windowMs : Int) (b : Bucket) (now : Int)
    (hcap : 1 ≤ cap) (htok : 0 ≤ b.tokens)
    (hdenied : (bucketStep cap windowMs b now).1.allowed = false) :
    (bucketStep cap windowMs b now).2 = b ∧ b.tokens = 0 ∧
      bucketStep cap windowMs (bucketStep cap windowMs b now).2 now =
        bucketStep cap windowMs b now := by
  have hrefill : refillBucket cap windowMs b now = b := by
    by_cases hadd : jsFloorDiv (now - b.lastRefill) windowMs * cap > 0
    · exfalso
      have hpos := refillBucket_tokens_pos_of_add cap windowMs hcap b htok now hadd
      unfold bucketStep at hdenied
      rw [consumeBucket_pos cap windowMs _ now hpos] at hdenied
      simp at hdenied
    · unfold refillBucket
      simp [hadd]
  have hzero : b.tokens = 0 := by
    by_cases hpos : b.tokens > 0
    · exfalso
      unfold bucketStep at hdenied
      rw [hrefill, consumeBucket_pos cap windowMs b now hpos] at hdenied
      simp at hdenied
    · omega
  have hpost : (bucketStep cap windowMs b now).2 = b := by
    unfold bucketStep
    rw [hrefill, consumeBucket_zero cap windowMs b now (by omega)]
  exact ⟨hpost, hzero, by rw [hpost]⟩

/-- Witness for C10 at `capacity = 3`, `windowMs = 60000`, bucket
`⟨0, 0⟩`, `now = 5`: the call is denied and the bucket stays `⟨0, 0⟩`. -/
theorem c10_denied_call_is_pure_witness :
    (bucketStep 3 60000 { tokens := 0, lastRefill := 0 } 5).2 =
        { tokens := 0, lastRefill := 0 } ∧
      (Bucket.mk 0 0).tokens = 0 ∧
      bucketStep 3 60000 (bucketStep 3 60000 { tokens := 0, lastRefill := 0 } 5).2 5 =
        bucketStep 3 60000 { tokens := 0, lastRefill := 0 } 5 :=
  c10_denied_call_is_pure 3 60000 { tokens := 0, lastRefill := 0 } 5
    (by decide) (by decide) (by decide)

/-! ## Error classification and retry
(`hooks/useErrorHandler.js`, `utils/api.js`) -/

/-- `s.startsWith sub` on character lists. -/
def startsWithList : List Char → List Char → Bool
  | _, [] => true
  | [], _ :: _ => false
  | c :: s, d :: sub => c = d && startsWithList s sub

/-- Substring containment on character lists. -/
def containsList (s sub : List Char) : Bool :=
  startsWithList s sub ||
    (match s with
     | [] => false
     | _ :: rest => containsList rest sub)

/-- JavaScript `s.includes(sub)`: substring containment. -/
def jsIncludes (s sub : String) : Bool :=
  containsList s.toList sub.toList

/-- JavaScript `s.toLowerCase()` (ASCII), written over the character list so
that it evaluates by kernel reduction. -/
def jsToLowerCase (s : String) : String :=
  String.mk (s.data.map Char.toLower)

/-- JavaScript `s.trim()`: drop leading and trailing whitespace, written
over the character list so that it evaluates by kernel reduction. -/
def jsTrim (s : String) : String :=
  String.mk
    (((s.data.dropWhile Char.isWhitespace).reverse.dropWhile
        Char.isWhitespace).reverse)

/-- A JavaScript error value, carrying the fields inspected by
`categorizeError` (`hooks/useErrorHandler.js`) and `isRetryableError`
(`utils/api.js`).  `isApiError`/`apiRetryable` model `error instanceof
ApiError` and its `retryable` field; absent JS fields are `none`. -/
structure JsError where
  message : String := ""
  name : String := ""
  status : Option Int := none
  code : Option String := none
  isApiError : Bool := false
  apiRetryable : Bool := false
  deriving Repr, DecidableEq

instance : Inhabited JsError := ⟨{}⟩

/-- JavaScript truthy range test `lo ≤ error.status < hi` (false when the
field is absent, since comparisons with `undefined` are false). -/
def statusInRange (status : Option Int) (lo hi : Int) : Bool :=
  match status with
  | some v => lo ≤ v && v < hi
  | none => false

/-- `categorizeError` from `hooks/useErrorHandler.js` lines 241–299:
first-match-wins cascade over lowercased message/name substrings and the
numeric status. -/
def categorizeError (e : JsError) : String :=
  let message := jsToLowerCase e.message
  let name := jsToLowerCase e.name
  if jsIncludes message "configuration" || jsIncludes message "api key" ||
     jsIncludes message "not configured" ||
     jsIncludes message "missing credentials" then
    "configuration"
  else if jsIncludes message "validation" || jsIncludes message "invalid" ||
     jsIncludes message "required" || jsIncludes message "bad request" ||
     e.status == some 400 then
    "validation"
  else if jsIncludes message "unauthorized" ||
     jsIncludes message "authentication" ||
     e.status == some 401 || e.status == some 403 then
    "authentication"
  else if jsIncludes message "rate limit" ||
     jsIncludes message "too many requests" || e.status == some 429 then
    "rate_limit"
  else if jsIncludes message "network" || jsIncludes message "connection" ||
     jsIncludes message "timeout" || jsIncludes name "network" ||
     e.status == some 0 then
    "network"
  else if jsIncludes message "server" || jsIncludes message "internal" ||
     statusInRange e.status 500 600 then
    "server"
  else if statusInRange e.status 400 500 then
    "client"
  else
    "unknown"

/-- `getRetryabilityForCategory` from `hooks/useErrorHandler.js`
lines 306–309. -/
def getRetryabilityForCategory (category : String) : Bool :=
  (["network", "server", "rate_limit", "unknown"] : List String).contains category

/-- `isRetryableError` from `utils/api.js` lines 95–112: `ApiError`s carry
their own flag; otherwise specific network codes, else specific statuses
(`if (error.status)` is falsy for status 0 or an absent status). -/
def isRetryableError (e : JsError) : Bool :=
  if e.isApiError then e.apiRetryable
  else if e.code == some "ECONNRESET" || e.code == some "ETIMEDOUT" ||
      e.code == some "ENOTFOUND" then
    true
  else
    match e.status with
    | some s => if s == 0 then false else ([408, 429, 500, 502, 503, 504] : List Int).contains s
    | none => false

/-- The retry loop of `retryWithBackoff` (`utils/api.js` lines 121–142),
with the operation modelled as a map from the (1-based) attempt number to
that invocation's outcome.  `fuel = maxAttempts - attempt`; `fuel = 0` is
the `attempt === maxAttempts` test.  Returns the outcome together with the
number of invocations performed.  The `fuel`-exhausted base case models the
unreachable `throw lastError` after the loop. -/
def retryAux {α : Type} (op : Nat → Except JsError α) :
    Nat → Nat → Except JsError α × Nat
  | _, 0 => (Except.error default, 0)
  | attempt, fuel + 1 =>
    match op attempt with
    | Except.ok a => (Except.ok a, 1)
    | Except.error e =>
      if !(isRetryableError e) || fuel == 0 then (Except.error e, 1)
      else
        let rest := retryAux op (attempt + 1) fuel
        (rest.1, rest.2 + 1)

/-- `retryWithBackoff(fn, maxAttempts, baseDelay)` from `utils/api.js`:
attempts run from 1 to `maxAttempts`. -/
def retryWithBackoff {α : Type} (op : Nat → Except JsError α)
    (maxAttempts : Nat) : Except JsError α × Nat :=
  retryAux op 1 maxAttempts

theorem retryAux_count_le {α : Type} (op : Nat → Except JsError α) :
    ∀ (fuel attempt : Nat), (retryAux op attempt fuel).2 ≤ fuel := by
  intro fuel
  induction fuel with
  | zero => intro attempt; simp [retryAux]
  | succ n ih =>
    intro attempt
    unfold retryAux
    cases h : op attempt with
    | ok a => simp
    | error e =>
      by_cases hc : !(isRetryableError e) || n == 0
      · simp [hc]
      · simp only [hc, if_false]
        have := ih (attempt + 1)
        simpa using Nat.succ_le_succ this

/-- C3: for every operation and every `maxAttempts ≥ 1`, the retry executor
`retryWithBackoff` invokes the operation at most `maxAttempts` times in
total, and invokes it exactly once when the first invocation fails with a
non-retryable error. -/
theorem c3_retry_attempt_bounds {α : Type} (op : Nat → Except JsError α)
    (maxAttempts : Nat) (h : 1 ≤ maxAttempts) :
    (retryWithBackoff op maxAttempts).2 ≤ maxAttempts ∧
    (∀ e, op 1 = Except.error e → isRetryableError e = false →
      (retryWithBackoff op maxAttempts).2 = 1) := by
  constructor
  · exact retryAux_count_le op maxAttempts 1
  · intro e hop hnr
    obtain ⟨m, rfl⟩ : ∃ m, maxAttempts = m + 1 :=
      ⟨maxAttempts - 1, by omega⟩
    unfold retryWithBackoff retryAux
    rw [hop]
    simp [hnr]

/-- Witness for C3: an operation that always fails with a plain
non-retryable error is invoked exactly once under `maxAttempts = 3`. -/
theorem c3_retry_attempt_bounds_witness :
    (retryWithBackoff (fun _ => (Except.error {} : Except JsError Unit)) 3).2 = 1 :=
  (c3_retry_attempt_bounds (fun _ => (Except.error {} : Except JsError Unit)) 3
    (by decide)).2 {} rfl (by decide)

/-- The fixed error value of scenario C2:
`{ message: "Unauthorized: invalid api key" }`. -/
def unauthorizedApiKeyError : JsError :=
  { message := "Unauthorized: invalid api key" }

/-- The retry loop of `executeWithErrorHandling`
(`hooks/useErrorHandler.js` lines 70–126), with the operation modelled as a
map from the (0-based) attempt number to that invocation's outcome and the
classifier-derived retryability of `processError` inlined
(`retryable := getRetryabilityForCategory(categorizeError(error))`).
`fuel = maxRetries - attempt`; `fuel = 0` is the
`currentAttempt > operationMaxRetries` test after the increment.  Returns
the outcome together with the number of invocations performed; the
`fuel`-exhausted base case is unreachable from `executeWithErrorHandling`. -/
def executeAux {α : Type} (op : Nat → Except JsError α) (autoRetry : Bool) :
    Nat → Nat → Except JsError α × Nat
  | _, 0 => (Except.error default, 0)
  | attempt, fuel + 1 =>
    match op attempt with
    | Except.ok a => (Except.ok a, 1)
    | Except.error e =>
      if fuel == 0 || !(getRetryabilityForCategory (categorizeError e)) ||
          !autoRetry then
        (Except.error e, 1)
      else
        let rest := executeAux op autoRetry (attempt + 1) fuel
        (rest.1, rest.2 + 1)

/-- `executeWithErrorHandling(operation, {autoRetry, maxRetries})` from
`hooks/useErrorHandler.js`: attempts run from 0 to `maxRetries`, so up to
`maxRetries + 1` invocations. -/
def executeWithErrorHandling {α : Type} (op : Nat → Except JsError α)
    (maxRetries : Nat) (autoRetry : Bool := true) : Except JsError α × Nat :=
  executeAux op autoRetry 0 (maxRetries + 1)

/-- C2 counterexample: `classify({message:"Unauthorized: invalid api key"})`
yields category `"configuration"`, not `"authentication"`: the message
contains the substring `"api key"`, so the first (configuration) rule of the
first-match-wins cascade fires. -/
theorem c2_unauthorized_api_key_counterexample :
    categorizeError unauthorizedApiKeyError = "configuration" ∧
    categorizeError unauthorizedApiKeyError ≠ "authentication" := by
  constructor
  · decide
  · decide

/-- C2 (amended): `classify({message:"Unauthorized: invalid api key"})`
returns category `"configuration"` with `retryable = false` (the `"api key"`
substring matches the configuration rule before the authentication rule can
fire), and running an operation that always fails with this error through
either retry executor invokes the operation exactly once. -/
theorem c2_amended_classify_and_single_invocation :
    (categorizeError unauthorizedApiKeyError = "configuration" ∧
     getRetryabilityForCategory (categorizeError unauthorizedApiKeyError) = false) ∧
    (∀ (maxRetries : Nat),
      (executeWithErrorHandling
        (fun _ => (Except.error unauthorizedApiKeyError : Except JsError Unit))
        maxRetries).2 = 1) ∧
    (∀ (maxAttempts : Nat), 1 ≤ maxAttempts →
      (retryWithBackoff
        (fun _ => (Except.error unauthorizedApiKeyError : Except JsError Unit))
        maxAttempts).2 = 1) := by
  refine ⟨⟨by decide, by decide⟩, ?_, ?_⟩
  · intro maxRetries
    unfold executeWithErrorHandling executeAux
    have h : getRetryabilityForCategory (categorizeError unauthorizedApiKeyError) = false := by
      decide
    simp [h]
  · intro maxAttempts h
    exact (c3_retry_attempt_bounds _ maxAttempts h).2 unauthorizedApiKeyError rfl
      (by decide)

/-! ## Exponential backoff delays

JS floating-point arithmetic is modelled exactly over `ℚ`; `Math.random()`
is an oracle value `rand` with `0 ≤ rand < 1`. -/

/-- `calculateBackoffDelay(attempt, baseDelay)` from
`hooks/useErrorHandler.js` lines 382–387:
`min(exponentialDelay + jitter, 30000)` with
`exponentialDelay = baseDelay * 2^(attempt-1)` and
`jitter = Math.random() * 0.1 * exponentialDelay`. -/
def calculateBackoffDelay (attempt : Nat) (baseDelay rand : ℚ) : ℚ :=
  let exponentialDelay := baseDelay * 2 ^ (attempt - 1)
  let jitter := rand * (1 / 10) * exponentialDelay
  min (exponentialDelay + jitter) 30000

/-- `calculateBackoffDelay(attempt, baseDelay)` from `utils/api.js`
lines 86–88: `min(baseDelay * 2^(attempt-1), 30000)`, with no jitter. -/
def calculateBackoffDelayApi (attempt : Nat) (baseDelay : ℚ) : ℚ :=
  min (baseDelay * 2 ^ (attempt - 1)) 30000

/-- C9: for every attempt number `a ≥ 1` and every `baseDelayMs`, the delay
slept before retry attempt `a` equals
`min(baseDelayMs * 2^(a-1) * (1 + j), 30000)` for some jitter
`j ∈ [0, 0.1]`; in particular the delay never exceeds 30000 ms and is never
below `baseDelayMs * 2^(a-1)` when that product is at most 30000.  Both
backoff implementations satisfy this: the hook version with `j = rand/10`,
the `utils/api.js` version with `j = 0`. -/
theorem c9_backoff_delay_bounds (attempt : Nat) (baseDelay rand : ℚ)
    (ha : 1 ≤ attempt) (hb : 0 ≤ baseDelay) (hr0 : 0 ≤ rand) (hr1 : rand < 1) :
    (∃ j : ℚ, 0 ≤ j ∧ j ≤ 1 / 10 ∧
      calculateBackoffDelay attempt baseDelay rand =
        min (baseDelay * 2 ^ (attempt - 1) * (1 + j)) 30000) ∧
    calculateBackoffDelay attempt baseDelay rand ≤ 30000 ∧
    (baseDelay * 2 ^ (attempt - 1) ≤ 30000 →
      baseDelay * 2 ^ (attempt - 1) ≤ calculateBackoffDelay attempt baseDelay rand) ∧
    (calculateBackoffDelayApi attempt baseDelay =
      min (baseDelay * 2 ^ (attempt - 1) * (1 + 0)) 30000) ∧
    calculateBackoffDelayApi attempt baseDelay ≤ 30000 ∧
    (baseDelay * 2 ^ (attempt - 1) ≤ 30000 →
      baseDelay * 2 ^ (attempt - 1) ≤ calculateBackoffDelayApi attempt baseDelay) := by
  have hexp : (0:ℚ) ≤ baseDelay * 2 ^ (attempt - 1) :=
    mul_nonneg hb (pow_nonneg (by norm_num) _)
  have hjit : (0:ℚ) ≤ rand * (1 / 10) * (baseDelay * 2 ^ (attempt - 1)) :=
    mul_nonneg (mul_nonneg hr0 (by norm_num)) hexp
  refine ⟨⟨rand / 10, by positivity, by linarith, ?_⟩, ?_, ?_, ?_, ?_, ?_⟩
  · unfold calculateBackoffDelay
    ring_nf
  · exact min_le_right _ _
  · intro hle
    unfold calculateBackoffDelay
    exact le_min (by linarith) hle
  · unfold calculateBackoffDelayApi
    norm_num
  · exact min_le_right _ _
  · intro hle
    unfold calculateBackoffDelayApi
    exact le_min (by linarith) hle

/-- Witness for C9 at `attempt = 1`, `baseDelay = 1000`, `rand = 0`:
the hook delay is 1000 and the api delay is 1000. -/
theorem c9_backoff_delay_bounds_witness :
    calculateBackoffDelay 1 1000 0 ≤ 30000 ∧
    ((1000:ℚ) * 2 ^ (1 - 1) ≤ 30000 →
      (1000:ℚ) * 2 ^ (1 - 1) ≤ calculateBackoffDelay 1 1000 0) :=
  ⟨(c9_backoff_delay_bounds 1 1000 0 (by norm_num) (by norm_num) (by norm_num)
      (by norm_num)).2.1,
   (c9_backoff_delay_bounds 1 1000 0 (by norm_num) (by norm_num) (by norm_num)
      (by norm_num)).2.2.1⟩

/-! ## Client-side generation cache (`hooks/useImageGeneration.js`) -/

/-- The `metadata` object attached to a generation result
(`hooks/useImageGeneration.js` lines 212–217). -/
structure GenMetadata where
  prompt : String
  generationTime : Int
  modelVersion : String
  deriving Repr, DecidableEq

/-- A `generationResult` as built in `generateFn`
(`hooks/useImageGeneration.js` lines 211–219). -/
structure GenResult where
  images : List String
  metadata : GenMetadata
  generationId : String
  deriving Repr, DecidableEq

/-- An entry of `generationHistoryRef`: the result fields plus the
`timestamp` written by `cacheResult`. -/
structure CacheEntry where
  result : GenResult
  timestamp : Int
  deriving Repr, DecidableEq

/-- The cache map, as an association list; `Map.set` prepends, and
`List.lookup` finds the most recent binding first. -/
def GenCache : Type := List (String × CacheEntry)

/-- Key normalization used by `getCachedResult`/`cacheResult`:
`prompt.trim().toLowerCase()`. -/
def normalizePrompt (prompt : String) : String :=
  jsToLowerCase (jsTrim prompt)

/-- `getCachedResult(prompt)` from `hooks/useImageGeneration.js`
lines 81–90: return the entry for the normalized prompt when it is younger
than the 5-minute (300000 ms) TTL, else `null`. -/
def getCachedResult (cache : GenCache) (now : Int) (prompt : String) :
    Option CacheEntry :=
  match List.lookup (normalizePrompt prompt) cache with
  | some cached => if now - cached.timestamp < 300000 then some cached else none
  | none => none

/-- `cacheResult(prompt, result)` from `hooks/useImageGeneration.js`
lines 97–103: store the result under the normalized prompt with the current
timestamp. -/
def cacheResult (cache : GenCache) (now : Int) (prompt : String)
    (result : GenResult) : GenCache :=
  (normalizePrompt prompt, { result := result, timestamp := now }) :: cache

/-- `validatePrompt(prompt)` from `hooks/useImageGeneration.js`
lines 110–135: the trimmed prompt must be non-empty and between 3 and 500
characters. -/
def validatePromptOk (prompt : String) : Bool :=
  let trimmedPrompt := jsTrim prompt
  !(trimmedPrompt.length == 0) && decide (3 ≤ trimmedPrompt.length) &&
    decide (trimmedPrompt.length ≤ 500)

/-- The observable outcome of one `generateImages` call. -/
inductive GenOutcome where
  | invalidPrompt : GenOutcome
  | cachedHit (entry : CacheEntry) : GenOutcome
  | success (result : GenResult) : GenOutcome
  | failure (message : String) : GenOutcome
  deriving Repr, DecidableEq

/-- One `generateImages(promptOverride, generationOptions)` call from
`hooks/useImageGeneration.js` lines 143–254, with the underlying fetch (as
run to completion by `executeWithErrorHandling`) modelled as its eventual
outcome `api`: a successful body yields a `GenResult`, a failure propagates.
Returns the outcome, the cache afterwards, and whether the underlying
operation was invoked.  The cache is written only on the success path
(`cacheResult` is called after a successful parse); a failed operation is
never cached. -/
def generateImagesCall (prompt : String) (forceRegenerate : Bool)
    (cache : GenCache) (now : Int) (api : Except String GenResult) :
    GenOutcome × GenCache × Bool :=
  if !(validatePromptOk prompt) then
    (GenOutcome.invalidPrompt, cache, false)
  else
    match getCachedResult cache now prompt, forceRegenerate with
    | some cached, false => (GenOutcome.cachedHit cached, cache, false)
    | _, _ =>
      match api with
      | Except.ok result =>
        (GenOutcome.success result, cacheResult cache now prompt result, true)
      | Except.error e => (GenOutcome.failure e, cache, true)

/-- C6: for every prompt, a generation call whose normalized key
(trim + lowercase) has a cached result younger than the 5-minute TTL returns
that cached result without invoking the underlying operation; a call whose
cached entry has outlived the TTL invokes the operation again; and a failed
operation is never written to the cache. -/
theorem c6_cache_ttl_and_no_failure_caching (prompt : String)
    (cache : GenCache) (now : Int) (api : Except String GenResult)
    (hvalid : validatePromptOk prompt = true) :
    (∀ cached, List.lookup (normalizePrompt prompt) cache = some cached →
      now - cached.timestamp < 300000 →
      generateImagesCall prompt false cache now api =
        (GenOutcome.cachedHit cached, cache, false)) ∧
    (∀ cached, List.lookup (normalizePrompt prompt) cache = some cached →
      ¬(now - cached.timestamp < 300000) →
      (generateImagesCall prompt false cache now api).2.2 = true) ∧
    (∀ e, api = Except.error e →
      getCachedResult cache now prompt = none →
      (generateImagesCall prompt false cache now api).2.1 = cache) := by
  refine ⟨?_, ?_, ?_⟩
  · intro cached hlook hfresh
    unfold generateImagesCall
    rw [hvalid]
    have hget : getCachedResult cache now prompt = some cached := by
      unfold getCachedResult
      rw [hlook]
      simp [hfresh]
    simp [hget]
  · intro cached hlook hstale
    unfold generateImagesCall
    rw [hvalid]
    have hget : getCachedResult cache now prompt = none := by
      unfold getCachedResult
      rw [hlook]
      simp [hstale]
    cases api with
    | ok r => simp [hget]
    | error e => simp [hget]
  · intro e hapi hget
    subst hapi
    unfold generateImagesCall
    rw [hvalid]
    simp [hget]

/-- Witness for C6 at a concrete prompt, cache and clock: a fresh entry for
`"A Sunset"` (normalized `"a sunset"`) cached at time 0 is served at time
1000 without invoking the operation. -/
theorem c6_cache_ttl_and_no_failure_caching_witness :
    generateImagesCall "A Sunset" false
        [("a sunset",
          { result := { images := ["u1"],
                        metadata := { prompt := "A Sunset", generationTime := 0,
                                      modelVersion := "unknown" },
                        generationId := "gen_0" },
            timestamp := 0 })]
        1000 (Except.error "network error") =
      (GenOutcome.cachedHit
        { result := { images := ["u1"],
                      metadata := { prompt := "A Sunset", generationTime := 0,
                                    modelVersion := "unknown" },
                      generationId := "gen_0" },
          timestamp := 0 },
       [("a sunset",
         { result := { images := ["u1"],
                       metadata := { prompt := "A Sunset", generationTime := 0,
                                     modelVersion := "unknown" },
                       generationId := "gen_0" },
           timestamp := 0 })],
       false) :=
  (c6_cache_ttl_and_no_failure_caching "A Sunset" _ 1000 _ (by decide)).1
    _ (by decide) (by decide)

/-! ## Concurrent request management (`hooks/useImageGeneration.js`,
`generateFn`, lines 176–199)

`generateFn` shares one `currentRequestRef` across callers.  A caller that
starts while another request is in flight calls `.abort()` on the previous
`AbortController`, registers a fresh controller, and issues its own fetch.
The shared state is modelled explicitly; request ids number the controllers
in creation order. -/

/-- Shared state of the hook instance: the in-flight request (if any), the
next fresh request id, the number of fetches issued so far, and the ids that
have been aborted. -/
structure RequestState where
  current : Option Nat
  nextId : Nat
  invocations : Nat
  aborted : List Nat
  deriving Repr, DecidableEq

/-- The state before any call. -/
def initialRequestState : RequestState :=
  { current := none, nextId := 0, invocations := 0, aborted := [] }

/-- A caller entering `generateFn`: abort the previous request if one is
still pending, register a fresh `AbortController`, and issue the fetch.
Returns the new state and this caller's request id. -/
def startGenerateFn (s : RequestState) : RequestState × Nat :=
  let s1 := match s.current with
    | some prev => { s with aborted := prev :: s.aborted }
    | none => s
  ({ current := some s1.nextId
     nextId := s1.nextId + 1
     invocations := s1.invocations + 1
     aborted := s1.aborted },
   s1.nextId)

/-- The `finally` block of `generateFn`: clear `currentRequestRef` when it
still refers to this caller's controller. -/
def finishGenerateFn (s : RequestState) (id : Nat) : RequestState :=
  if s.current == some id then { s with current := none } else s

/-- C7 counterexample: two callers that start a generation concurrently
(the second before the first finishes) do NOT share a single invocation:
the underlying fetch is issued twice, and the first caller's request is
aborted by the second, so the two callers do not resolve to the same
in-flight result. -/
theorem c7_concurrent_callers_counterexample :
    (startGenerateFn (startGenerateFn initialRequestState).1).1.invocations = 2 ∧
    (startGenerateFn (startGenerateFn initialRequestState).1).1.invocations ≠ 1 ∧
    (startGenerateFn (startGenerateFn initialRequestState).1).1.aborted = [0] := by
  refine ⟨by decide, by decide, by decide⟩

/-- C7 (amended): when two callers start a generation concurrently while
neither has completed, each start issues exactly one new invocation of the
underlying operation (so two callers issue two invocations, not one), the
second start aborts the first caller's still-pending request, and at most
one request is in flight at any time — concurrency is resolved by
cancellation of the previous request, not by sharing one in-flight
operation. -/
theorem c7_amended_second_start_aborts_first (s : RequestState) :
    (startGenerateFn s).1.invocations = s.invocations + 1 ∧
    (startGenerateFn s).1.current = some s.nextId ∧
    (∀ prev, s.current = some prev →
      prev ∈ (startGenerateFn s).1.aborted) := by
  refine ⟨?_, ?_, ?_⟩
  · cases h : s.current <;> simp [startGenerateFn, h]
  · cases h : s.current <;> simp [startGenerateFn, h]
  · intro prev hprev
    simp [startGenerateFn, hprev]

/-- Witness for C7 (amended) at the state reached by one caller having
started: the second start issues the second invocation and aborts request
0. -/
theorem c7_amended_second_start_aborts_first_witness :
    (startGenerateFn (startGenerateFn initialRequestState).1).1.invocations =
        (startGenerateFn initialRequestState).1.invocations + 1 ∧
    (startGenerateFn (startGenerateFn initialRequestState).1).1.current =
        some (startGenerateFn initialRequestState).1.nextId ∧
    (∀ prev, (startGenerateFn initialRequestState).1.current = some prev →
      prev ∈ (startGenerateFn (startGenerateFn initialRequestState).1).1.aborted) :=
  c7_amended_second_start_aborts_first (startGenerateFn initialRequestState).1

/-! ## Fan-out generation handler

`src/pages/api/generate-image.js` (the handler cited by the spec) issues 4
upstream `fal.run` calls and aggregates them with `Promise.all`.  The
evolved variant of the same route (the options-aware handler whose
`generateImagesWithRetry` reads `options.num_images`/`options.seed`) is
embedded alongside it.  Each upstream call's settled outcome is given as an
`Except`: `Except.error` is a rejected promise, `Except.ok` a fulfilled one
(whose value may still be structurally invalid). -/

/-- One element of a FAL response's `images` array. -/
structure FalImage where
  url : Option String
  deriving Repr, DecidableEq

/-- A fulfilled `fal.run` value: its `images` array (entries may be null). -/
structure FalRunResult where
  images : List (Option FalImage)
  deriving Repr, DecidableEq

/-- The per-result extraction of the handler (`generate-image.js`
lines 91–97): `null` unless `result && result.images && result.images[0] &&
result.images[0].url` are all truthy (an empty-string url is falsy), else
the first image's url.  The later `.filter(Boolean)` drops the `null`s. -/
def extractUrl (result : Option FalRunResult) : Option String :=
  match result with
  | none => none
  | some r =>
    match r.images with
    | [] => none
    | none :: _ => none
    | some img :: _ =>
      match img.url with
      | none => none
      | some u => if u = "" then none else some u

/-- `Promise.all` over settled outcomes: all values when every promise
fulfils, otherwise a rejection (the first in index order) — it does not wait
out the remaining promises' values. -/
def promiseAll {ε α : Type} : List (Except ε α) → Except ε (List α)
  | [] => Except.ok []
  | Except.error e :: _ => Except.error e
  | Except.ok a :: rest =>
    match promiseAll rest with
    | Except.ok as => Except.ok (a :: as)
    | Except.error e => Except.error e

/-- The aggregation of the handler (`src/pages/api/generate-image.js`
lines 88–105): await all four promises with `Promise.all`, map each result
through the url extraction, drop the nulls, throw when nothing survives,
otherwise answer with the surviving urls.  A rejected sub-promise rejects
`Promise.all` itself and lands in the handler's `catch`, modelled as the
`Except.error` propagating. -/
def handlerFanOut (outcomes : List (Except String (Option FalRunResult))) :
    Except String (List String) :=
  match promiseAll outcomes with
  | Except.error e => Except.error e
  | Except.ok results =>
    let imageUrls := (results.map extractUrl).filterMap id
    if imageUrls.length = 0 then Except.error "No images were generated"
    else Except.ok imageUrls

/-- A structurally valid fulfilled sub-call outcome. -/
def goodFalResult : Option FalRunResult :=
  some { images := [some { url := some "https://img.example/ok.jpg" }] }

/-- A fulfilled sub-call outcome whose first image entry is null, so its url
extraction yields `null`. -/
def nullUrlFalResult : Option FalRunResult :=
  some { images := [none] }

theorem promiseAll_map_ok {ε α : Type} (l : List α) :
    promiseAll (l.map (Except.ok : α → Except ε α)) = Except.ok l := by
  induction l with
  | nil => rfl
  | cons a rest ih =>
    simp only [List.map_cons, promiseAll, ih]

theorem promiseAll_error_of_mem {ε α : Type} :
    ∀ (l : List (Except ε α)) (e : ε), Except.error e ∈ l →
      ∃ f, promiseAll l = Except.error f := by
  intro l
  induction l with
  | nil => intro e he; cases he
  | cons x rest ih =>
    intro e he
    cases x with
    | error f => exact ⟨f, rfl⟩
    | ok a =>
      have hmem : Except.error e ∈ rest := by
        rcases List.mem_cons.mp he with h | h
        · cases h
        · exact h
      obtain ⟨f, hf⟩ := ih e hmem
      exact ⟨f, by simp only [promiseAll, hf]⟩

/-- C1 counterexample: with `numImages = 4`, when exactly one of the four
sub-calls fails by promise rejection (the other three fulfil with valid
urls), `generate` does not return a 3-image result: `Promise.all`
short-circuits on the rejection and the handler throws, answering through
its error path. -/
theorem c1_rejected_subcall_counterexample :
    handlerFanOut
        [Except.error "upstream failure", Except.ok goodFalResult,
         Except.ok goodFalResult, Except.ok goodFalResult] =
      Except.error "upstream failure" := by
  rfl

/-- C1 (amended): when all four sub-calls fulfil and exactly three of them
carry a valid url (the remaining one yields a null/invalid structure), the
handler returns a successful result whose images list has length 3 and does
not throw; but a sub-call whose promise rejects is not tolerated: any
rejection among the outcomes makes the whole fan-out reject
(`Promise.all` short-circuits instead of joining all and discarding the
failure). -/
theorem c1_amended_partial_success_only_for_null_results
    (results : List (Option FalRunResult))
    (h3 : ((results.map extractUrl).filterMap id).length = 3) :
    (handlerFanOut (results.map Except.ok) =
        Except.ok ((results.map extractUrl).filterMap id) ∧
      ((results.map extractUrl).filterMap id).length = 3) ∧
    (∀ (outcomes : List (Except String (Option FalRunResult))) (e : String),
      Except.error e ∈ outcomes → (handlerFanOut outcomes).isOk = false) := by
  constructor
  · constructor
    · unfold handlerFanOut
      rw [promiseAll_map_ok]
      simp only [h3]
      norm_num
    · exact h3
  · intro outcomes e he
    obtain ⟨f, hf⟩ := promiseAll_error_of_mem outcomes e he
    unfold handlerFanOut
    rw [hf]
    rfl

/-- Witness for C1 (amended): four fulfilled outcomes, one with a null
image entry, give a successful 3-url result. -/
theorem c1_amended_partial_success_witness :
    handlerFanOut
        [Except.ok goodFalResult, Except.ok nullUrlFalResult,
         Except.ok goodFalResult, Except.ok goodFalResult] =
      Except.ok ["https://img.example/ok.jpg", "https://img.example/ok.jpg",
                 "https://img.example/ok.jpg"] := by
  have h := (c1_amended_partial_success_only_for_null_results
    [goodFalResult, nullUrlFalResult, goodFalResult, goodFalResult]
    (by decide)).1.1
  simpa using h

/-- An `image_size` object. -/
structure ImageSize where
  width : Nat
  height : Nat
  deriving Repr, DecidableEq

/-- The generation options a request may carry
(`options.num_images`, `options.seed`, `options.image_size`); absent fields
are `none`. -/
structure GenOptions where
  numImages : Option Nat := none
  seed : Option Nat := none
  imageSize : Option ImageSize := none
  deriving Repr, DecidableEq

/-- The input of one upstream `fal.run` call. -/
structure FalCall where
  prompt : String
  seed : Nat
  numImages : Nat
  size : ImageSize
  deriving Repr, DecidableEq

/-- The sub-call construction of the handler at
`src/pages/api/generate-image.js` lines 69–86: always four calls, the call
at `index` using `seed = Math.floor(Math.random() * 1000000) + index` with a
fresh random draw per call (the draws are the oracle `rng`, already floored)
and a fixed 1024×1024 size.  The request body's `options` are received but
never read — the handler destructures only `prompt`. -/
def legacyHandlerSubCalls (prompt : String) (opts : GenOptions)
    (rng : Nat → Nat) : List FalCall :=
  (List.range 4).map fun index =>
    { prompt := prompt
      seed := rng index + index
      numImages := 1
      size := { width := 1024, height := 1024 } }

/-- `options.num_images || config.app.imagesPerGeneration` of the evolved
handler: a present-but-zero count is falsy and falls back to the default. -/
def effNumImages (opts : GenOptions) (defaultNumImages : Nat) : Nat :=
  match opts.numImages with
  | some n => if n = 0 then defaultNumImages else n
  | none => defaultNumImages

/-- The sub-call construction of the evolved handler's
`generateImagesWithRetry` (the options-aware route, lines 229–255):
`numImages = options.num_images || default`, and the call at `index` uses
`seed = options.seed + index` when a seed is given, else a fresh random draw
plus `index`; `image_size` defaults to 1024×1024. -/
def evolvedSubCalls (prompt : String) (opts : GenOptions)
    (defaultNumImages : Nat) (rng : Nat → Nat) : List FalCall :=
  (List.range (effNumImages opts defaultNumImages)).map fun index =>
    { prompt := prompt
      seed := match opts.seed with
        | some s => s + index
        | none => rng index + index
      numImages := 1
      size := opts.imageSize.getD { width := 1024, height := 1024 } }

/-- C8 counterexample: the cited handler ignores `request.options` entirely.
With `numImages = 2` requested it still issues 4 sub-calls, and with
`seed = 7` requested and random draws `0, 5, 5, 5` it produces seeds
`[0, 6, 7, 8]` rather than `[7, 8, 9, 10]` — nor do those seeds share a
single base (`0 - 0 = 0` but `6 - 1 = 5`). -/
theorem c8_options_ignored_counterexample :
    (legacyHandlerSubCalls "x" { numImages := some 2 } (fun _ => 0)).length ≠ 2 ∧
    (legacyHandlerSubCalls "x" { seed := some 7 }
        (fun i => if i = 0 then 0 else 5)).map FalCall.seed = [0, 6, 7, 8] ∧
    (legacyHandlerSubCalls "x" { seed := some 7 }
        (fun i => if i = 0 then 0 else 5)).map FalCall.seed ≠ [7, 8, 9, 10] := by
  refine ⟨by decide, by decide, by decide⟩

/-- C8 (amended): the handler cited by the spec issues exactly 4 upstream
calls regardless of the request's options, the call at index `i` using its
own fresh random draw plus `i` as seed and a fixed 1024×1024 size.  The
evolved options-aware handler issues `n = options.num_images || default`
calls, and the call at index `i` uses `seed = options.seed + i` when a seed
is given — but when no seed is given each call still uses an independent
random draw plus `i`, not one random base seed drawn once. -/
theorem c8_amended_subcall_construction (prompt : String) (opts : GenOptions)
    (defaultNumImages : Nat) (rng : Nat → Nat) :
    (legacyHandlerSubCalls prompt opts rng).length = 4 ∧
    (legacyHandlerSubCalls prompt opts rng).map FalCall.seed =
      (List.range 4).map (fun i => rng i + i) ∧
    legacyHandlerSubCalls prompt opts rng =
      legacyHandlerSubCalls prompt {} rng ∧
    (evolvedSubCalls prompt opts defaultNumImages rng).length =
      effNumImages opts defaultNumImages ∧
    (evolvedSubCalls prompt opts defaultNumImages rng).map FalCall.seed =
      (List.range (effNumImages opts defaultNumImages)).map
        (fun i => match opts.seed with
          | some s => s + i
          | none => rng i + i) := by
  refine ⟨?_, ?_, rfl, ?_, ?_⟩
  · simp [legacyHandlerSubCalls]
  · simp [legacyHandlerSubCalls, List.map_map]
  · simp [evolvedSubCalls]
  · simp [evolvedSubCalls, List.map_map]

/-- Witness for C2 (amended) at `maxRetries = 3` / `maxAttempts = 3`: the
always-failing operation is invoked exactly once by both retry loops. -/
theorem c2_amended_classify_and_single_invocation_witness :
    (executeWithErrorHandling
        (fun _ => (Except.error unauthorizedApiKeyError : Except JsError Unit))
        3).2 = 1 ∧
    (retryWithBackoff
        (fun _ => (Except.error unauthorizedApiKeyError : Except JsError Unit))
        3).2 = 1 :=
  ⟨c2_amended_classify_and_single_invocation.2.1 3,
   c2_amended_classify_and_single_invocation.2.2 3 (by decide)⟩
